import Mathlib

/-
Verification of the WaveEventForm widget
(eeg_modelling/eeg_viewer/static/js/wave_event_form.js).

The widget is shallowly embedded as a pure state-transition system.  The
instance fields (startTime_, endTime_, selectedChannels_, allChannels_)
and the observable DOM surface the methods touch (the two time inputs,
the type-dropdown text, the checkbox checked states, the hidden class
and the form position) form the state.  External collaborators are
parameters: the time formatter (formatter.formatTime) is an arbitrary
function fmt, the montage name computation
(montages.channelIndexesToNames) an arbitrary function toNames, the
measured form size and window.innerHeight are numeric inputs, and the
dispatcher is modelled by returning the list of dispatched actions.

A JS Set preserves insertion order and holds no duplicates, so the
selection set is a list with add = append-if-absent and delete =
remove-the-element; Array.from is then the identity.
-/

set_option autoImplicit false

namespace WaveEventForm

/-- Default width of the form (const defaultFormWidth). -/
def defaultFormWidth : Int := 330

/-- Default height of the form (const defaultFormHeight). -/
def defaultFormHeight : Int := 487

/-- JS Set.add: a set never holds duplicates, so adding appends the
element only when absent (insertion order preserved). -/
def setAdd (l : List String) (a : String) : List String :=
  if a ∈ l then l else l ++ [a]

/-- JS Set.delete: removes the element from the set (a set holds no
duplicates, so removal is a filter). -/
def setDelete (l : List String) (a : String) : List String :=
  l.filter (fun x => x ≠ a)

/-- Payload of the GRAPH_POINT_CLICK store property:
{ timeValue, channelName, xPos, yPos }. -/
structure GraphPointClick where
  timeValue : Int
  channelName : String
  xPos : Int
  yPos : Int
deriving DecidableEq, Repr

/-- State of the widget: the four instance fields plus the DOM surface
the methods read and write. -/
structure State where
  startTime : Option Int
  endTime : Option Int
  selectedChannels : List String
  allChannels : List String
  startInput : String
  endInput : String
  typeDropdown : String
  checkedBoxes : List String
  formHidden : Bool
  formLeft : Int
  formTop : Int
deriving DecidableEq, Repr

/-- State at construction: times null, selection empty, no cached
channels, inputs empty, form hidden.  The initial text of the
type-dropdown label comes from the page markup (not in this file), so it
is a parameter. -/
def initState (label0 : String) : State :=
  { startTime := none
    endTime := none
    selectedChannels := []
    allChannels := []
    startInput := ""
    endInput := ""
    typeDropdown := label0
    checkedBoxes := []
    formHidden := true
    formLeft := 0
    formTop := 0 }

/-- Action types of the dispatcher that this widget emits. -/
inductive ActionType where
  | ADD_WAVE_EVENT
deriving DecidableEq, Repr

/-- The action sent by save(): actionType ADD_WAVE_EVENT with data
{ labelText, startTime, duration, channelList }. -/
structure WaveAction where
  actionType : ActionType
  labelText : String
  startTime : Int
  duration : Int
  channelList : List String
deriving DecidableEq, Repr

/-- setWaveEventFormPosition_: pure placement arithmetic.  offsetW and
offsetH are the measured size of the form element (0 when hidden, hence
the || fallback to the defaults), innerHeight is window.innerHeight.
Returns the (left, top) written to the style. -/
def setWaveEventFormPosition (offsetW offsetH innerHeight xPos yPos : Int) :
    Int × Int :=
  let formWidth := if offsetW = 0 then defaultFormWidth else offsetW
  let formHeight := if offsetH = 0 then defaultFormHeight else offsetH
  let left0 := xPos - formWidth - 20
  let movedLeft := left0 < 0
  let left := if movedLeft then xPos + 10 else left0
  let top0 := if movedLeft then yPos + 80 else yPos
  let verticalLimit := innerHeight - formHeight - 100
  let top :=
    if top0 > verticalLimit then
      yPos - formHeight - (if movedLeft then 200 else 20)
    else top0
  (left, top)

/-- handleGraphPointClick: the three click phases.  fmt is
formatter.formatTime (external collaborator), innerHeight, offsetW and
offsetH describe the ambient window and the measured form size, absStart
is store.absStart, ev is store.graphPointClick. -/
def handleGraphPointClick (fmt : Int → String)
    (innerHeight offsetW offsetH absStart : Int)
    (ev : GraphPointClick) (s : State) : State :=
  let prettyTime := fmt (absStart + ev.timeValue)
  let toggleChannel : State :=
    if ev.channelName ∈ s.selectedChannels then
      { s with
        selectedChannels := setDelete s.selectedChannels ev.channelName
        checkedBoxes := setDelete s.checkedBoxes ev.channelName }
    else
      { s with
        selectedChannels := setAdd s.selectedChannels ev.channelName
        checkedBoxes := setAdd s.checkedBoxes ev.channelName }
  match s.startTime, s.endTime with
  | none, _ =>
    let pos := setWaveEventFormPosition offsetW offsetH innerHeight ev.xPos ev.yPos
    { s with
      startInput := prettyTime
      endInput := ""
      formLeft := pos.1
      formTop := pos.2
      formHidden := false
      startTime := some ev.timeValue
      selectedChannels := setAdd s.selectedChannels ev.channelName
      checkedBoxes := setAdd s.checkedBoxes ev.channelName }
  | some st, none =>
    if ev.timeValue > st then
      { s with
        endInput := prettyTime
        endTime := some ev.timeValue
        selectedChannels := setAdd s.selectedChannels ev.channelName
        checkedBoxes := setAdd s.checkedBoxes ev.channelName }
    else toggleChannel
  | some _, some _ => toggleChannel

/-- selectType: sets the visible text of the type-dropdown label. -/
def selectType (type : String) (s : State) : State :=
  { s with typeDropdown := type }

/-- close: clears both time inputs, unchecks every channel checkbox,
nulls the times, clears the selection and hides the form. -/
def close (s : State) : State :=
  { s with
    startInput := ""
    endInput := ""
    checkedBoxes := []
    startTime := none
    endTime := none
    selectedChannels := []
    formHidden := true }

/-- save: no-op when startTime is null; effective endTime falls back to
startTime; silent no-op when endTime < startTime; otherwise dispatches
the ADD_WAVE_EVENT action (labelText read from the type-dropdown text)
and closes the form.  The second component is the list of dispatched
actions. -/
def save (s : State) : State × List WaveAction :=
  match s.startTime with
  | none => (s, [])
  | some startTime =>
    let endTime := s.endTime.getD startTime
    if endTime < startTime then (s, [])
    else
      (close s,
        [{ actionType := ActionType.ADD_WAVE_EVENT
           labelText := s.typeDropdown
           startTime := startTime
           duration := endTime - startTime
           channelList := s.selectedChannels }])

/-- toggleAllChannels: with the All box checked, every cached channel
name is added to the selection; unchecked, the selection is cleared.
toggleAllChannelCheckboxes_ then synchronizes every checkbox in the
container (one per cached channel) to the same checked value. -/
def toggleAllChannels (checked : Bool) (s : State) : State :=
  if checked then
    { s with
      selectedChannels := s.allChannels.foldl setAdd s.selectedChannels
      checkedBoxes := s.allChannels }
  else
    { s with
      selectedChannels := []
      checkedBoxes := [] }

/-- handleChannelNames: no-op unless both channelIds and indexChannelMap
are present in the store snapshot; otherwise recomputes allChannels via
montages.channelIndexesToNames (the external collaborator toNames) and
rebuilds the checkbox container from scratch, every fresh checkbox
unchecked.  The selection set and the times are not touched. -/
def handleChannelNames
    (toNames : List String → List (Nat × String) → List String)
    (channelIds : Option (List String))
    (indexChannelMap : Option (List (Nat × String)))
    (s : State) : State :=
  match channelIds, indexChannelMap with
  | some ids, some imap =>
    { s with
      allChannels := toNames ids imap
      checkedBoxes := [] }
  | _, _ => s

/-- States reachable from a freshly constructed widget by any sequence
of the five store and UI entry points. -/
inductive Reachable : State → Prop where
  | init (label0 : String) : Reachable (initState label0)
  | clickStep (s : State) (hs : Reachable s) (fmt : Int → String)
      (innerHeight offsetW offsetH absStart : Int) (ev : GraphPointClick) :
      Reachable (handleGraphPointClick fmt innerHeight offsetW offsetH absStart ev s)
  | saveStep (s : State) (hs : Reachable s) : Reachable (save s).1
  | closeStep (s : State) (hs : Reachable s) : Reachable (close s)
  | toggleAllStep (s : State) (hs : Reachable s) (checked : Bool) :
      Reachable (toggleAllChannels checked s)
  | channelNamesStep (s : State) (hs : Reachable s)
      (toNames : List String → List (Nat × String) → List String)
      (channelIds : Option (List String))
      (indexChannelMap : Option (List (Nat × String))) :
      Reachable (handleChannelNames toNames channelIds indexChannelMap s)

/-- Membership in the JS-set add. -/
theorem mem_setAdd (l : List String) (a c : String) :
    c ∈ setAdd l a ↔ c ∈ l ∨ c = a := by
  unfold setAdd
  split
  · rename_i hmem
    constructor
    · exact Or.inl
    · rintro (hc | rfl)
      · exact hc
      · exact hmem
  · simp

/-- Membership in the JS-set delete. -/
theorem mem_setDelete (l : List String) (a c : String) :
    c ∈ setDelete l a ↔ c ∈ l ∧ c ≠ a := by
  simp [setDelete]

/-- Membership after folding the JS-set add over a list. -/
theorem mem_foldl_setAdd (all : List String) (sel : List String) (c : String) :
    c ∈ all.foldl setAdd sel ↔ c ∈ sel ∨ c ∈ all := by
  induction all generalizing sel with
  | nil => simp
  | cons a tl ih =>
    simp only [List.foldl_cons, ih, mem_setAdd, List.mem_cons]
    tauto

/-- The time invariant: a non-null endTime is strictly later than a
non-null startTime. -/
def TimesInv (s : State) : Prop :=
  ∀ e, s.endTime = some e → ∃ st, s.startTime = some st ∧ st < e

theorem timesInv_initState (label0 : String) : TimesInv (initState label0) := by
  intro e he
  simp [initState] at he

theorem timesInv_of_frame (s1 s2 : State) (hs : s2.startTime = s1.startTime)
    (he : s2.endTime = s1.endTime) (h : TimesInv s1) : TimesInv s2 := by
  intro e h2
  rw [he] at h2
  obtain ⟨st, hst, hlt⟩ := h e h2
  exact ⟨st, hs ▸ hst, hlt⟩

theorem click_startTime (fmt : Int → String)
    (innerHeight offsetW offsetH absStart : Int) (ev : GraphPointClick)
    (s : State) :
    (handleGraphPointClick fmt innerHeight offsetW offsetH absStart ev s).startTime =
      match s.startTime with
      | none => some ev.timeValue
      | some st => some st := by
  obtain ⟨sT, eT, sel, all, si, ei, td, cb, fh, fl, ft⟩ := s
  cases sT with
  | none => rfl
  | some st =>
    cases eT with
    | none =>
      simp only [handleGraphPointClick]
      split_ifs <;> rfl
    | some e0 =>
      simp only [handleGraphPointClick]
      split_ifs <;> rfl

theorem click_endTime (fmt : Int → String)
    (innerHeight offsetW offsetH absStart : Int) (ev : GraphPointClick)
    (s : State) :
    (handleGraphPointClick fmt innerHeight offsetW offsetH absStart ev s).endTime =
      match s.startTime, s.endTime with
      | some st, none => if ev.timeValue > st then some ev.timeValue else none
      | _, e => e := by
  obtain ⟨sT, eT, sel, all, si, ei, td, cb, fh, fl, ft⟩ := s
  cases sT with
  | none => rfl
  | some st =>
    cases eT with
    | none =>
      simp only [handleGraphPointClick]
      split_ifs <;> rfl
    | some e0 =>
      simp only [handleGraphPointClick]
      split_ifs <;> rfl

theorem timesInv_click (fmt : Int → String)
    (innerHeight offsetW offsetH absStart : Int) (ev : GraphPointClick)
    (s : State) (h : TimesInv s) :
    TimesInv (handleGraphPointClick fmt innerHeight offsetW offsetH absStart ev s) := by
  intro e he
  rw [click_endTime] at he
  rw [click_startTime]
  cases hst : s.startTime with
  | none =>
    rw [hst] at he
    cases hend : s.endTime with
    | none => rw [hend] at he; exact absurd he (by simp)
    | some e0 =>
      obtain ⟨st, hst2, -⟩ := h e0 hend
      rw [hst] at hst2
      exact absurd hst2 (by simp)
  | some st =>
    cases hend : s.endTime with
    | none =>
      rw [hst, hend] at he
      simp only at he
      split at he
      · obtain rfl : ev.timeValue = e := by simpa using he
        exact ⟨st, rfl, by assumption⟩
      · exact absurd he (by simp)
    | some e0 =>
      rw [hst, hend] at he
      simp only at he
      obtain rfl : e0 = e := by simpa using he
      obtain ⟨st2, hst2, hlt⟩ := h _ hend
      rw [hst] at hst2
      obtain rfl : st = st2 := by simpa using hst2
      exact ⟨st, rfl, hlt⟩

theorem timesInv_close (s : State) : TimesInv (close s) := by
  intro e he
  simp [close] at he

theorem timesInv_save (s : State) (h : TimesInv s) : TimesInv (save s).1 := by
  unfold save
  cases hst : s.startTime with
  | none => simpa using h
  | some st =>
    simp only
    split
    · simpa using h
    · exact timesInv_close s

theorem timesInv_toggleAll (checked : Bool) (s : State) (h : TimesInv s) :
    TimesInv (toggleAllChannels checked s) := by
  refine timesInv_of_frame s _ ?_ ?_ h <;>
    (unfold toggleAllChannels; split_ifs <;> rfl)

theorem timesInv_channelNames
    (toNames : List String → List (Nat × String) → List String)
    (channelIds : Option (List String))
    (indexChannelMap : Option (List (Nat × String)))
    (s : State) (h : TimesInv s) :
    TimesInv (handleChannelNames toNames channelIds indexChannelMap s) := by
  refine timesInv_of_frame s _ ?_ ?_ h <;>
    (unfold handleChannelNames; cases channelIds <;> cases indexChannelMap <;> rfl)

/-- Every reachable state satisfies the time invariant. -/
theorem reachable_timesInv (s : State) (hr : Reachable s) : TimesInv s := by
  induction hr with
  | init label0 => exact timesInv_initState label0
  | clickStep s hs fmt iH oW oH aS ev ih => exact timesInv_click fmt iH oW oH aS ev s ih
  | saveStep s hs ih => exact timesInv_save s ih
  | closeStep s hs ih => exact timesInv_close s
  | toggleAllStep s hs checked ih => exact timesInv_toggleAll checked s ih
  | channelNamesStep s hs toNames ids imap ih => exact timesInv_channelNames toNames ids imap s ih

/-- In a reachable state with startTime set, the effective endTime is
never below startTime, so the defensive guard in save never fires. -/
theorem reachable_effectiveEnd (s : State) (hr : Reachable s) (st : Int)
    (hst : s.startTime = some st) : ¬ s.endTime.getD st < st := by
  cases he : s.endTime with
  | none => simp
  | some e =>
    obtain ⟨st2, hst2, hlt⟩ := reachable_timesInv s hr e he
    rw [hst] at hst2
    obtain rfl : st = st2 := by simpa using hst2
    simp only [Option.getD_some]
    omega

/-- In a reachable state with startTime set, save dispatches exactly the
ADD_WAVE_EVENT action and then closes. -/
theorem save_dispatches (s : State) (hr : Reachable s) (st : Int)
    (hst : s.startTime = some st) :
    save s =
      (close s,
        [{ actionType := ActionType.ADD_WAVE_EVENT
           labelText := s.typeDropdown
           startTime := st
           duration := s.endTime.getD st - st
           channelList := s.selectedChannels }]) := by
  unfold save
  rw [hst]
  simp only
  rw [if_neg (reachable_effectiveEnd s hr st hst)]

/-- Sample formatter standing in for formatter.formatTime. -/
def fmt0 : Int → String := fun _ => "t"

/-- Sample first click. -/
def ev1 : GraphPointClick :=
  { timeValue := 1, channelName := "C3", xPos := 50, yPos := 100 }

/-- Sample second click. -/
def ev2 : GraphPointClick :=
  { timeValue := 2, channelName := "O1", xPos := 400, yPos := 200 }

/-- State after one click on channel C3 at time 1. -/
def exClick1 : State :=
  handleGraphPointClick fmt0 800 0 0 100 ev1 (initState "SPIKE")

/-- State after a second click on channel O1 at time 2. -/
def exClick2 : State :=
  handleGraphPointClick fmt0 800 330 487 100 ev2 exClick1

theorem exClick1_reachable : Reachable exClick1 :=
  Reachable.clickStep (initState "SPIKE") (Reachable.init "SPIKE") fmt0 800 0 0 100 ev1

theorem exClick2_reachable : Reachable exClick2 :=
  Reachable.clickStep exClick1 exClick1_reachable fmt0 800 330 487 100 ev2

/-- An artificial state with endTime before startTime, exercising the
defensive guard in save. -/
def badState : State :=
  { initState "BAD" with startTime := some 5, endTime := some 3 }

/-- Sample stand-in for montages.channelIndexesToNames. -/
def toNamesX : List String → List (Nat × String) → List String :=
  fun _ _ => ["X1"]

/-- C1: in every reachable state with startTime set, save dispatches exactly
one ADD_WAVE_EVENT action carrying the displayed type label, the recorded
startTime, duration equal to the effective endTime minus startTime (endTime
falling back to startTime when unset, so a single click yields duration 0),
and the selection set materialized as a list; the resulting state is that of
close. -/
theorem C1_save_emits (s : State) (hr : Reachable s) (st : Int)
    (hst : s.startTime = some st) :
    (save s).2 =
      [{ actionType := ActionType.ADD_WAVE_EVENT
         labelText := s.typeDropdown
         startTime := st
         duration := s.endTime.getD st - st
         channelList := s.selectedChannels }] ∧
    (save s).1 = close s := by
  rw [save_dispatches s hr st hst]
  exact ⟨rfl, rfl⟩

/-- C1 witness: the concrete one-click state dispatches its action (with
duration 0) and closes. -/
theorem C1_save_emits_witness :
    (save exClick1).2 =
      [{ actionType := ActionType.ADD_WAVE_EVENT
         labelText := exClick1.typeDropdown
         startTime := 1
         duration := exClick1.endTime.getD 1 - 1
         channelList := exClick1.selectedChannels }] ∧
    (save exClick1).1 = close exClick1 :=
  C1_save_emits exClick1 exClick1_reachable 1 (by decide)

/-- C2: in every state reachable from the freshly constructed widget by the
five entry points, a non-null endTime implies a non-null startTime strictly
below it. -/
theorem C2_times_invariant (s : State) (hr : Reachable s) (e : Int)
    (he : s.endTime = some e) :
    ∃ st, s.startTime = some st ∧ st < e :=
  reachable_timesInv s hr e he

/-- C2 witness: the concrete two-click state has endTime 2 and a startTime
strictly below it. -/
theorem C2_times_invariant_witness :
    ∃ st, exClick2.startTime = some st ∧ st < 2 :=
  C2_times_invariant exClick2 exClick2_reachable 2 (by decide)

/-- C3: a click arriving with startTime already set and either endTime set or
timeValue at most startTime leaves both times unchanged and toggles the
clicked channel in the selection set, leaving every other channel as it
was. -/
theorem C3_click_toggles (fmt : Int → String)
    (innerHeight offsetW offsetH absStart : Int) (ev : GraphPointClick)
    (s : State) (st : Int) (hst : s.startTime = some st)
    (hrest : s.endTime ≠ none ∨ ev.timeValue ≤ st) :
    (handleGraphPointClick fmt innerHeight offsetW offsetH absStart ev s).startTime = s.startTime ∧
    (handleGraphPointClick fmt innerHeight offsetW offsetH absStart ev s).endTime = s.endTime ∧
    (ev.channelName ∈ (handleGraphPointClick fmt innerHeight offsetW offsetH absStart ev s).selectedChannels ↔
      ev.channelName ∉ s.selectedChannels) ∧
    ∀ c, c ≠ ev.channelName →
      (c ∈ (handleGraphPointClick fmt innerHeight offsetW offsetH absStart ev s).selectedChannels ↔
        c ∈ s.selectedChannels) := by
  obtain ⟨sT, eT, sel, all, si, ei, td, cb, fh, fl, ft⟩ := s
  obtain rfl : sT = some st := by simpa using hst
  cases eT with
  | some e0 =>
    simp only [handleGraphPointClick]
    by_cases hmem : ev.channelName ∈ sel
    · rw [if_pos hmem]
      refine ⟨rfl, rfl, ?_, ?_⟩
      · simp [mem_setDelete, hmem]
      · intro c hc
        simp [mem_setDelete, hc]
    · rw [if_neg hmem]
      refine ⟨rfl, rfl, ?_, ?_⟩
      · simp [mem_setAdd, hmem]
      · intro c hc
        simp [mem_setAdd, hc]
  | none =>
    have hle : ev.timeValue ≤ st := by
      rcases hrest with h | h
      · simp at h
      · exact h
    simp only [handleGraphPointClick]
    rw [if_neg (not_lt.mpr hle)]
    by_cases hmem : ev.channelName ∈ sel
    · rw [if_pos hmem]
      refine ⟨rfl, rfl, ?_, ?_⟩
      · simp [mem_setDelete, hmem]
      · intro c hc
        simp [mem_setDelete, hc]
    · rw [if_neg hmem]
      refine ⟨rfl, rfl, ?_, ?_⟩
      · simp [mem_setAdd, hmem]
      · intro c hc
        simp [mem_setAdd, hc]

/-- C3 witness: with both times set, a further click on C3 keeps the times
and toggles C3 out of the selection. -/
theorem C3_click_toggles_witness :
    (handleGraphPointClick fmt0 800 330 487 100
        { timeValue := 5, channelName := "C3", xPos := 0, yPos := 0 } exClick2).startTime =
      exClick2.startTime ∧
    (handleGraphPointClick fmt0 800 330 487 100
        { timeValue := 5, channelName := "C3", xPos := 0, yPos := 0 } exClick2).endTime =
      exClick2.endTime ∧
    ("C3" ∈ (handleGraphPointClick fmt0 800 330 487 100
        { timeValue := 5, channelName := "C3", xPos := 0, yPos := 0 } exClick2).selectedChannels ↔
      "C3" ∉ exClick2.selectedChannels) :=
  let h := C3_click_toggles fmt0 800 330 487 100
    { timeValue := 5, channelName := "C3", xPos := 0, yPos := 0 } exClick2 1
    (by decide) (Or.inl (by decide))
  ⟨h.1, h.2.1, h.2.2.1⟩

/-- C4: with startTime unset, save dispatches nothing and leaves the state
untouched. -/
theorem C4_save_noop (s : State) (h : s.startTime = none) :
    save s = (s, []) := by
  unfold save
  rw [h]

/-- C4 witness: save on the freshly constructed widget is a no-op. -/
theorem C4_save_noop_witness : save (initState "") = (initState "", []) :=
  C4_save_noop (initState "") rfl

/-- C5: with the measured size falling back to 330 x 487 when zero, the form
is placed at (xPos - width - 20, yPos), or at (xPos + 10, yPos + 80) when the
left edge would be off-screen, whenever the vertical overflow check does not
fire; in particular the click (50, 100) with a hidden form and window height
800 yields (60, 180). -/
theorem C5_position (offsetW offsetH innerHeight xPos yPos : Int)
    (hv : (if xPos - (if offsetW = 0 then 330 else offsetW) - 20 < 0 then yPos + 80 else yPos) ≤
        innerHeight - (if offsetH = 0 then 487 else offsetH) - 100) :
    setWaveEventFormPosition offsetW offsetH innerHeight xPos yPos =
      (if xPos - (if offsetW = 0 then 330 else offsetW) - 20 < 0 then xPos + 10
        else xPos - (if offsetW = 0 then 330 else offsetW) - 20,
       if xPos - (if offsetW = 0 then 330 else offsetW) - 20 < 0 then yPos + 80 else yPos) ∧
    setWaveEventFormPosition 0 0 800 50 100 = (60, 180) := by
  constructor
  · unfold setWaveEventFormPosition defaultFormWidth defaultFormHeight
    simp only
    rw [if_neg (not_lt.mpr hv)]
  · decide

/-- C5 witness: the spec example, via the general statement. -/
theorem C5_position_witness :
    setWaveEventFormPosition 0 0 800 50 100 = (60, 180) :=
  (C5_position 0 0 800 50 100 (by decide)).2

/-- C6 (amended): whenever the computed top exceeds window.innerHeight -
height - 100, the final top equals yPos - height - 200 when the form was
moved to the right of the click (that is, the previously computed top
yPos + 80 shifted upward by height + 280), and equals the previously
computed top yPos shifted upward by height + 20 otherwise. -/
theorem C6_vertical_shift (offsetW offsetH innerHeight xPos yPos : Int)
    (hover : (if xPos - (if offsetW = 0 then 330 else offsetW) - 20 < 0 then yPos + 80 else yPos) >
        innerHeight - (if offsetH = 0 then 487 else offsetH) - 100) :
    (setWaveEventFormPosition offsetW offsetH innerHeight xPos yPos).2 =
      yPos - (if offsetH = 0 then 487 else offsetH) -
        (if xPos - (if offsetW = 0 then 330 else offsetW) - 20 < 0 then 200 else 20) := by
  unfold setWaveEventFormPosition defaultFormWidth defaultFormHeight
  simp only
  rw [if_pos hover]

/-- C6 witness: the moved-right overflow instance, via the amended
statement. -/
theorem C6_vertical_shift_witness :
    (setWaveEventFormPosition 0 0 800 5 700).2 = 13 := by
  rw [C6_vertical_shift 0 0 800 5 700 (by decide)]
  decide

/-- C6 counterexample: at the click (5, 700) with a hidden form (fallback
size 330 x 487) and window height 800, the computed top 780 exceeds
800 - 487 - 100 = 213 and the form was moved to the right of the click, yet
the final top is 13 = yPos - height - 200 and not 93 = 780 - (487 + 200),
the previously computed top shifted upward by height + 200 that the claim
predicts. -/
theorem C6_vertical_shift_counterexample :
    ((5:Int) - 330 - 20 < 0) ∧
    ((700:Int) + 80 > 800 - 487 - 100) ∧
    (setWaveEventFormPosition 0 0 800 5 700).2 = 13 ∧
    (700:Int) + 80 - (487 + 200) = 93 ∧
    (13:Int) ≠ 93 := by decide

/-- C7: close resets the selection state to the freshly constructed values
(times null, selection empty) and is idempotent on the whole state, display
included. -/
theorem C7_close_resets (s : State) :
    (close s).startTime = none ∧ (close s).endTime = none ∧
    (close s).selectedChannels = [] ∧ close (close s) = close s :=
  ⟨rfl, rfl, rfl, rfl⟩

/-- C7 witness: the reset and the idempotence at the concrete two-click
state. -/
theorem C7_close_resets_witness :
    (close exClick2).startTime = none ∧ (close exClick2).endTime = none ∧
    (close exClick2).selectedChannels = [] ∧ close (close exClick2) = close exClick2 :=
  C7_close_resets exClick2

/-- C8: toggling the All box on makes the selection the previous selection
plus every cached channel name, toggling it off empties the selection, and
on-then-off always ends empty. -/
theorem C8_toggleAll (s : State) (c : String) :
    (c ∈ (toggleAllChannels true s).selectedChannels ↔
      c ∈ s.selectedChannels ∨ c ∈ s.allChannels) ∧
    (toggleAllChannels false s).selectedChannels = [] ∧
    (toggleAllChannels false (toggleAllChannels true s)).selectedChannels = [] := by
  refine ⟨?_, rfl, rfl⟩
  exact mem_foldl_setAdd s.allChannels s.selectedChannels c

/-- C8 witness: the toggle-all algebra at the concrete one-click state. -/
theorem C8_toggleAll_witness :
    ("C3" ∈ (toggleAllChannels true exClick1).selectedChannels ↔
      "C3" ∈ exClick1.selectedChannels ∨ "C3" ∈ exClick1.allChannels) ∧
    (toggleAllChannels false exClick1).selectedChannels = [] ∧
    (toggleAllChannels false (toggleAllChannels true exClick1)).selectedChannels = [] :=
  C8_toggleAll exClick1 "C3"

/-- C9: save returns without dispatching whenever the effective endTime is
below startTime, and in reachable states this guard never fires: with
startTime set the effective endTime is not below startTime and save
dispatches exactly one action. -/
theorem C9_guard_unreachable (s1 s2 : State) (hr : Reachable s2) (st1 st2 : Int)
    (h1 : s1.startTime = some st1) (hlt : s1.endTime.getD st1 < st1)
    (h2 : s2.startTime = some st2) :
    save s1 = (s1, []) ∧ ¬ s2.endTime.getD st2 < st2 ∧ (save s2).2.length = 1 := by
  refine ⟨?_, reachable_effectiveEnd s2 hr st2 h2, ?_⟩
  · unfold save
    rw [h1]
    simp only
    rw [if_pos hlt]
  · rw [save_dispatches s2 hr st2 h2]
    rfl

/-- C9 witness: the guard fires on an artificial inverted state and the
reachable one-click state dispatches. -/
theorem C9_guard_unreachable_witness :
    save badState = (badState, []) ∧ ¬ exClick1.endTime.getD 1 < 1 ∧
    (save exClick1).2.length = 1 :=
  C9_guard_unreachable badState exClick1 exClick1_reachable 5 1
    (by decide) (by decide) (by decide)

/-- C10: handleChannelNames with both store fields present replaces
allChannels wholesale and leaves the selection and the times untouched, so a
channel selected before the update stays selected, even when absent from the
new list, and appears in the channelList of a subsequent save. -/
theorem C10_channelNames_frame (s : State) (hr : Reachable s) (st : Int)
    (hst : s.startTime = some st)
    (toNames : List String → List (Nat × String) → List String)
    (ids : List String) (imap : List (Nat × String)) (c : String)
    (hc : c ∈ s.selectedChannels) :
    (handleChannelNames toNames (some ids) (some imap) s).allChannels = toNames ids imap ∧
    (handleChannelNames toNames (some ids) (some imap) s).selectedChannels = s.selectedChannels ∧
    (handleChannelNames toNames (some ids) (some imap) s).startTime = s.startTime ∧
    (handleChannelNames toNames (some ids) (some imap) s).endTime = s.endTime ∧
    ∃ a, (save (handleChannelNames toNames (some ids) (some imap) s)).2 = [a] ∧
      c ∈ a.channelList := by
  refine ⟨rfl, rfl, rfl, rfl, ?_⟩
  have hr2 : Reachable (handleChannelNames toNames (some ids) (some imap) s) :=
    Reachable.channelNamesStep s hr toNames (some ids) (some imap)
  have hst2 : (handleChannelNames toNames (some ids) (some imap) s).startTime = some st := hst
  rw [save_dispatches _ hr2 st hst2]
  exact ⟨_, rfl, hc⟩

/-- C10 witness: channel C3, selected before a channel-map update that drops
it, still reaches the dispatched channelList. -/
theorem C10_channelNames_frame_witness :
    "C3" ∉ toNamesX [] [] ∧
    (handleChannelNames toNamesX (some []) (some []) exClick1).allChannels = toNamesX [] [] ∧
    ∃ a, (save (handleChannelNames toNamesX (some []) (some []) exClick1)).2 = [a] ∧
      "C3" ∈ a.channelList :=
  let h := C10_channelNames_frame exClick1 exClick1_reachable 1 (by decide)
    toNamesX [] [] "C3" (by decide)
  ⟨by decide, h.1, h.2.2.2.2⟩

end WaveEventForm
